import Mathlib

/-!
Shallow embedding of the pwsafe-service remote-storage sync engine:
the generic sync orchestrator (`SyncableSafesService`), the OneDrive
OAuth/PKCE provider, and the provider registry, together with proofs
about their list/select/download/cleanup and credential behavior.

Filesystem and network effects are made explicit: stateful Go methods
become Lean functions from an explicit state (persisted files, clock)
and a record of pending network responses to a new state, a trace of
filesystem operations, and a result.
-/

namespace Pwsafe

/-- SelectedFile tracks a file's selection state (service types). -/
structure SelectedFile where
  id : String
  name : String
  path : String
  selected : Bool
  deriving Repr, DecidableEq

/-- SyncConfig is the persistent state saved to .config.json; an empty
`lastSyncTime` models the omitted (`omitempty`) JSON field. -/
structure SyncConfig where
  files : List SelectedFile
  lastSyncTime : String
  deriving Repr, DecidableEq

/-- ConnectionStatus is the connection/auth state of a provider. -/
structure ConnectionStatus where
  connected : Bool := false
  needsReauth : Bool := false
  accountName : String := ""
  accountEmail : String := ""
  deriving Repr, DecidableEq

/-- SyncResult is the outcome of syncing a single file; empty strings model
omitted optional JSON fields. -/
structure SyncResult where
  name : String
  success : Bool
  lastModified : String := ""
  error : String := ""
  deriving Repr, DecidableEq

/-- Tokens is the OneDrive provider's persisted OAuth credential
(.tokens.json). -/
structure Tokens where
  accessToken : String
  refreshToken : String
  expiresAt : String
  accountName : String := ""
  accountEmail : String := ""
  deriving Repr, DecidableEq

/-- RemoteFile is a file as discovered on a remote storage provider
(the optional LastModified plays no role in the claims). -/
structure RemoteFile where
  id : String
  name : String
  path : String
  deriving Repr, DecidableEq

/-- FsOp is one filesystem effect performed by the code; traces of these
make "what was written" observable. -/
inductive FsOp where
  | mkdirAll (dir : String)
  | writeFile (path : String)
  | rename (src dst : String)
  | removeFile (path : String)
  deriving Repr, DecidableEq

/-- Ev is one effect performed by the OneDrive provider: a filesystem
operation or an outbound HTTP call. -/
inductive Ev where
  | fs (op : FsOp)
  | exchange (code verifier : String)
  | refreshCall (refreshToken : String)
  | profileCall
  deriving Repr, DecidableEq

/-- TokenResponse is the decoded JSON body of a successful token-endpoint
response. -/
structure TokenResponse where
  access_token : String
  refresh_token : String
  expires_in : Int
  deriving Repr, DecidableEq

/-- HttpResult models the outcome of one HTTP request to the token
endpoint: transport error, non-200 with a body, 200 with an undecodable
body, or 200 with a decoded token response. -/
inductive HttpResult where
  | netErr
  | httpErr (body : String)
  | badJson
  | ok (t : TokenResponse)
  deriving Repr, DecidableEq

/-! ## Modelling Go time: RFC 3339 parsing and formatting

`time.Parse(time.RFC3339, s)` succeeds exactly on strings of the shape
`YYYY-MM-DDTHH:MM:SS[.fff](Z|±HH:MM)` with in-range components; the
embedding maps such a string to its epoch-second instant (fractions
truncated) and everything else to `none`. -/

/-- digitVal? reads one decimal digit. -/
def digitVal? (c : Char) : Option Nat :=
  if c.isDigit then some (c.toNat - 48) else none

/-- twoDigits? reads a two-digit decimal number. -/
def twoDigits? (a b : Char) : Option Nat := do
  let x ← digitVal? a
  let y ← digitVal? b
  pure (10 * x + y)

/-- fourDigits? reads a four-digit decimal number. -/
def fourDigits? (a b c d : Char) : Option Nat := do
  let x ← twoDigits? a b
  let y ← twoDigits? c d
  pure (100 * x + y)

/-- isLeapYear in the proleptic Gregorian calendar. -/
def isLeapYear (y : Nat) : Bool :=
  (y % 4 == 0 && y % 100 != 0) || y % 400 == 0

/-- daysInMonth for a given year and month (1-12). -/
def daysInMonth (y m : Nat) : Nat :=
  if m = 2 then (if isLeapYear y then 29 else 28)
  else if m = 4 ∨ m = 6 ∨ m = 9 ∨ m = 11 then 30
  else 31

/-- daysFromCivil converts a Gregorian date to days since 1970-01-01. -/
def daysFromCivil (y m d : Nat) : Int :=
  let yy : Int := if m ≤ 2 then (y : Int) - 1 else (y : Int)
  let era : Int := yy.fdiv 400
  let yoe : Int := yy - era * 400
  let mp : Int := if m > 2 then (m : Int) - 3 else (m : Int) + 9
  let doy : Int := (153 * mp + 2).fdiv 5 + (d : Int) - 1
  let doe : Int := yoe * 365 + yoe.fdiv 4 - yoe.fdiv 100 + doy
  era * 146097 + doe - 719468

/-- dropFrac skips an optional fractional-seconds part: a dot must be
followed by at least one digit. -/
def dropFrac : List Char → Option (List Char)
  | '.' :: rest =>
      let ds := rest.takeWhile (·.isDigit)
      if ds.isEmpty then none else some (rest.drop ds.length)
  | cs => some cs

/-- parseOffset reads the trailing time-zone designator and returns the
offset in seconds. -/
def parseOffset : List Char → Option Int
  | ['Z'] => some 0
  | [s, h1, h2, ':', m1, m2] =>
      if s = '+' ∨ s = '-' then do
        let h ← twoDigits? h1 h2
        let m ← twoDigits? m1 m2
        if h ≤ 23 ∧ m ≤ 59 then
          let off : Int := (h : Int) * 3600 + (m : Int) * 60
          some (if s = '+' then off else -off)
        else none
      else none
  | _ => none

/-- parseRFC3339 models `time.Parse(time.RFC3339, s)`: `some` of the
epoch-second instant on well-formed input, `none` on anything else. -/
def parseRFC3339 (s : String) : Option Int :=
  match s.data with
  | y1 :: y2 :: y3 :: y4 :: '-' :: mo1 :: mo2 :: '-' :: dd1 :: dd2 :: 'T' ::
    h1 :: h2 :: ':' :: mi1 :: mi2 :: ':' :: ss1 :: ss2 :: rest => do
      let y ← fourDigits? y1 y2 y3 y4
      let mo ← twoDigits? mo1 mo2
      let dd ← twoDigits? dd1 dd2
      let h ← twoDigits? h1 h2
      let mi ← twoDigits? mi1 mi2
      let ss ← twoDigits? ss1 ss2
      if 1 ≤ mo ∧ mo ≤ 12 ∧ 1 ≤ dd ∧ dd ≤ daysInMonth y mo ∧
         h ≤ 23 ∧ mi ≤ 59 ∧ ss ≤ 59 then
        let rest2 ← dropFrac rest
        let off ← parseOffset rest2
        some (daysFromCivil y mo dd * 86400 +
              ((h : Int) * 3600 + (mi : Int) * 60 + (ss : Int)) - off)
      else none
  | _ => none

/-- civilFromDays converts days since 1970-01-01 back to a Gregorian
date (year, month, day). -/
def civilFromDays (z0 : Int) : Int × Nat × Nat :=
  let z : Int := z0 + 719468
  let era : Int := z.fdiv 146097
  let doe : Nat := (z - era * 146097).toNat
  let yoe : Nat := (doe - doe / 1460 + doe / 36524 - doe / 146096) / 365
  let doy : Nat := doe - (365 * yoe + yoe / 4 - yoe / 100)
  let mp : Nat := (5 * doy + 2) / 153
  let d : Nat := doy - (153 * mp + 2) / 5 + 1
  let m : Nat := if mp < 10 then mp + 3 else mp - 9
  (era * 400 + (yoe : Int) + (if m ≤ 2 then 1 else 0), m, d)

/-- pad2 left-pads a number to two digits. -/
def pad2 (n : Nat) : String :=
  if n < 10 then "0" ++ toString n else toString n

/-- pad4 left-pads a number to four digits. -/
def pad4 (n : Nat) : String :=
  if n < 10 then "000" ++ toString n
  else if n < 100 then "00" ++ toString n
  else if n < 1000 then "0" ++ toString n
  else toString n

/-- fmtRFC3339 models `t.Format(time.RFC3339)` (in UTC) for an
epoch-second instant. -/
def fmtRFC3339 (secs : Int) : String :=
  let days : Int := secs.fdiv 86400
  let sod : Nat := (secs - days * 86400).toNat
  let c := civilFromDays days
  pad4 c.1.toNat ++ "-" ++ pad2 c.2.1 ++ "-" ++ pad2 c.2.2 ++ "T" ++
    pad2 (sod / 3600) ++ ":" ++ pad2 (sod / 60 % 60) ++ ":" ++ pad2 (sod % 60) ++ "Z"

/-- listHasInfix decides whether `pat` occurs contiguously in the list. -/
def listHasInfix (pat : List Char) : List Char → Bool
  | [] => pat.isEmpty
  | c :: rest => pat.isPrefixOf (c :: rest) || listHasInfix pat rest

/-- containsStr models Go `strings.Contains`. -/
def containsStr (s pat : String) : Bool :=
  listHasInfix pat.data s.data

/-! ## OneDrive provider model (provider/onedrive/provider.go)

Each method becomes a function from the provider configuration, the
provider-visible state (persisted credential and transient-secret files
plus the clock) and the pending network responses to a new state, an
effect trace, and the Go result. Local I/O failures (MkdirAll, WriteFile)
are not modelled: in the model filesystem operations succeed. -/

/-- ODConfig is the OneDriveProvider's construction-time configuration;
`storageDir` holds .tokens.json and .code_verifier. -/
structure ODConfig where
  storageDir : String
  clientID : String
  redirectURI : String
  deriving Repr, DecidableEq

/-- ODState is the provider-visible world: the decoded .tokens.json
(`none` when missing or undecodable), the .code_verifier file content
with its mtime, and the clock in epoch seconds. -/
structure ODState where
  tokensFile : Option Tokens
  verifierFile : Option (String × Int)
  now : Int
  deriving Repr, DecidableEq

/-- ODNet fixes the responses the outside world gives to the provider's
HTTP calls during one operation; `profileResp = none` models a failed
profile fetch. -/
structure ODNet where
  refreshResp : HttpResult
  exchangeResp : HttpResult
  profileResp : Option (String × String)
  deriving Repr, DecidableEq

/-- codeVerifierMaxAge is the PKCE transient-secret TTL in seconds. -/
def codeVerifierMaxAge : Int := 15 * 60

/-- tokensPath is the credential file path. -/
def tokensPath (c : ODConfig) : String := c.storageDir ++ "/.tokens.json"

/-- verifierPath is the transient-secret file path. -/
def verifierPath (c : ODConfig) : String := c.storageDir ++ "/.code_verifier"

/-- loadTokens reads and decodes .tokens.json. -/
def loadTokens (st : ODState) : Except String Tokens :=
  match st.tokensFile with
  | none => Except.error "read or decode failed"
  | some t => Except.ok t

/-- storeTokens writes .tokens.json: MkdirAll on the storage directory
followed by a direct WriteFile of the marshalled tokens. -/
def storeTokens (c : ODConfig) (st : ODState) (t : Tokens) : ODState × List Ev :=
  ({ st with tokensFile := some t },
   [Ev.fs (FsOp.mkdirAll c.storageDir), Ev.fs (FsOp.writeFile (tokensPath c))])

/-- refreshAccessToken posts the refresh-token grant and persists the
result; a non-200 body containing `invalid_grant` becomes the distinct
REAUTH_REQUIRED error, and an empty `refresh_token` in a 200 response
keeps the previous refresh token. -/
def refreshAccessToken (c : ODConfig) (st : ODState) (net : ODNet) (t : Tokens) :
    ODState × List Ev × Except String Tokens :=
  let ev := [Ev.refreshCall t.refreshToken]
  match net.refreshResp with
  | HttpResult.netErr => (st, ev, Except.error "refresh request failed")
  | HttpResult.httpErr body =>
      if containsStr body "invalid_grant" then
        (st, ev, Except.error "REAUTH_REQUIRED: refresh token is invalid")
      else
        (st, ev, Except.error ("refresh failed: " ++ body))
  | HttpResult.badJson => (st, ev, Except.error "failed to parse refresh response")
  | HttpResult.ok tr =>
      let newRefresh := if tr.refresh_token == "" then t.refreshToken else tr.refresh_token
      let newTokens : Tokens :=
        { accessToken := tr.access_token
          refreshToken := newRefresh
          expiresAt := fmtRFC3339 (st.now + tr.expires_in)
          accountName := t.accountName
          accountEmail := t.accountEmail }
      let stored := storeTokens c st newTokens
      (stored.1, ev ++ stored.2, Except.ok newTokens)

/-- getValidAccessToken returns a usable access token, refreshing if the
current one is expired; the read-check-refresh-write sequence runs under
the token mutex (serialization itself is not modelled). -/
def getValidAccessToken (c : ODConfig) (st : ODState) (net : ODNet) :
    ODState × List Ev × Except String String :=
  match loadTokens st with
  | Except.error e => (st, [], Except.error ("no tokens found: " ++ e))
  | Except.ok t =>
      if t.accessToken == "" then (st, [], Except.error "no access token")
      else
        match parseRFC3339 t.expiresAt with
        | none => (st, [], Except.error "invalid expiry time")
        | some expiresAt =>
            if st.now < expiresAt then (st, [], Except.ok t.accessToken)
            else if t.refreshToken == "" then
              (st, [], Except.error "REAUTH_REQUIRED: token expired and no refresh token")
            else
              match refreshAccessToken c st net t with
              | (st2, ev, Except.error e) => (st2, ev, Except.error e)
              | (st2, ev, Except.ok nt) => (st2, ev, Except.ok nt.accessToken)

/-- getConnectionStatus derives the connection state from the persisted
credential; a nonempty unparsable expiry is reported as needing reauth,
and `attemptRefresh = true` additionally verifies that a valid access
token can be obtained. The Go error return is always nil. -/
def getConnectionStatus (c : ODConfig) (st : ODState) (net : ODNet)
    (attemptRefresh : Bool) : ODState × List Ev × ConnectionStatus :=
  match loadTokens st with
  | Except.error _ => (st, [], {})
  | Except.ok t =>
      if t.accessToken == "" || t.refreshToken == "" then (st, [], {})
      else if t.expiresAt != "" && (parseRFC3339 t.expiresAt).isNone then
        (st, [], { needsReauth := true })
      else
        let base : ConnectionStatus :=
          { connected := true, accountName := t.accountName, accountEmail := t.accountEmail }
        if attemptRefresh then
          match getValidAccessToken c st net with
          | (st2, ev, Except.error _) => (st2, ev, { base with needsReauth := true })
          | (st2, ev, Except.ok _) => (st2, ev, base)
        else (st, [], base)

/-- loadCodeVerifier stats the verifier file, deletes it and fails when
its mtime is more than 15 minutes old, and otherwise reads it. -/
def loadCodeVerifier (c : ODConfig) (st : ODState) :
    ODState × List Ev × Except String String :=
  match st.verifierFile with
  | none => (st, [], Except.error "stat failed")
  | some (v, mtime) =>
      if st.now - mtime > codeVerifierMaxAge then
        ({ st with verifierFile := none },
         [Ev.fs (FsOp.removeFile (verifierPath c))], Except.error "code verifier expired")
      else (st, [], Except.ok v)

/-- deleteCodeVerifier removes the verifier file. -/
def deleteCodeVerifier (c : ODConfig) (st : ODState) : ODState × List Ev :=
  ({ st with verifierFile := none }, [Ev.fs (FsOp.removeFile (verifierPath c))])

/-- exchangeCodeForTokens posts the authorization-code grant with the
PKCE verifier; unlike the refresh path it does not special-case
`invalid_grant`. -/
def exchangeCodeForTokens (st : ODState) (net : ODNet) (code codeVerifier : String) :
    List Ev × Except String Tokens :=
  let ev := [Ev.exchange code codeVerifier]
  match net.exchangeResp with
  | HttpResult.netErr => (ev, Except.error "token request failed")
  | HttpResult.httpErr body => (ev, Except.error ("token exchange failed: " ++ body))
  | HttpResult.badJson => (ev, Except.error "failed to parse token response")
  | HttpResult.ok tr =>
      (ev, Except.ok
        { accessToken := tr.access_token
          refreshToken := tr.refresh_token
          expiresAt := fmtRFC3339 (st.now + tr.expires_in)
          accountName := ""
          accountEmail := "" })

/-- handleCallback exchanges the authorization code for credentials:
it loads the verifier (failing if absent or expired), exchanges the code,
fetches the profile (non-fatal on failure), stores the tokens, and
deletes the verifier. -/
def handleCallback (c : ODConfig) (st : ODState) (net : ODNet) (code : String) :
    ODState × List Ev × Except String Unit :=
  if c.clientID == "" then (st, [], Except.error "ONEDRIVE_CLIENT_ID not configured")
  else
    match loadCodeVerifier c st with
    | (st1, ev1, Except.error e) =>
        (st1, ev1, Except.error ("failed to load code verifier: " ++ e))
    | (st1, ev1, Except.ok codeVerifier) =>
        match exchangeCodeForTokens st1 net code codeVerifier with
        | (ev2, Except.error e) =>
            (st1, ev1 ++ ev2, Except.error ("failed to exchange code for tokens: " ++ e))
        | (ev2, Except.ok newTokens) =>
            let profile := match net.profileResp with
              | some pr => pr
              | none => ("", "")
            let nt := { newTokens with accountName := profile.1, accountEmail := profile.2 }
            let stored := storeTokens c st1 nt
            let deleted := deleteCodeVerifier c stored.1
            (deleted.1, ev1 ++ ev2 ++ [Ev.profileCall] ++ stored.2 ++ deleted.2, Except.ok ())

/-- evFsOps selects the filesystem operations out of a provider trace. -/
def evFsOps (evs : List Ev) : List FsOp :=
  evs.filterMap (fun e => match e with
    | Ev.fs op => some op
    | _ => none)

/-! ## Generic sync orchestrator model (service/syncable_safes_service.go)

The orchestrator's filesystem is the per-provider .config.json plus the
mirrored files as a path-to-content association list. Provider calls
made during an operation are resolved against a `SyncNet` record of
pending responses. Directory objects (MkdirAll success, empty-directory
pruning) are not part of the state: creation shows up only as trace
events and pruning of empty directories is not modelled, since no claim
depends on directory existence. -/

/-- ConfigFile is the on-disk .config.json: absent, present but not
decodable, or decodable to a SyncConfig. -/
inductive ConfigFile where
  | absent
  | corrupt
  | stored (c : SyncConfig)
  deriving Repr, DecidableEq

/-- OrchState is the orchestrator-visible filesystem. -/
structure OrchState where
  configFile : ConfigFile
  mirror : List (String × String)
  deriving Repr, DecidableEq

/-- SyncNet fixes provider responses for one orchestrator operation: the
cheap connection check and the per-file-id download result (content and
Last-Modified header). -/
structure SyncNet where
  connCheap : Except String ConnectionStatus
  download : String → Except String (String × String)

/-- joinPath models filepath.Join for the clean inputs used here. -/
def joinPath (a b : String) : String := if b == "" then a else a ++ "/" ++ b

/-- providerDir is the backend's mirror root. -/
def providerDir (safesDirectory providerID : String) : String :=
  joinPath safesDirectory providerID

/-- configPath is the persisted selection/sync-time file. -/
def configPath (safesDirectory providerID : String) : String :=
  joinPath (providerDir safesDirectory providerID) ".config.json"

/-- trimLeadingSlash models strings.TrimPrefix(p, separator): one leading
separator stripped. -/
def trimLeadingSlash (p : String) : String :=
  match p.data with
  | '/' :: rest => String.mk rest
  | _ => p

/-- getLocalPath computes a selected file's mirror path from the
backend's mirror root, the slash-trimmed remote parent path, and the
file name. -/
def getLocalPath (safesDirectory providerID : String) (f : SelectedFile) : String :=
  joinPath (joinPath (providerDir safesDirectory providerID) (trimLeadingSlash f.path)) f.name

/-- lowerChar lowercases an ASCII character (strings.ToLower restricted
to the ASCII range relevant to the .psafe3 check). -/
def lowerChar (c : Char) : Char :=
  if 'A' ≤ c ∧ c ≤ 'Z' then Char.ofNat (c.toNat + 32) else c

/-- hasPsafe3Suffix models strings.HasSuffix(strings.ToLower(name), ".psafe3"). -/
def hasPsafe3Suffix (name : String) : Bool :=
  List.isSuffixOf (".psafe3".data) (name.data.map lowerChar)

/-- startsWithDot checks for the hidden-file marker on a name. -/
def startsWithDot (name : String) : Bool :=
  match name.data with
  | c :: _ => c == '.'
  | [] => false

/-- baseName is the final path component (DirEntry.Name of a walked file). -/
def baseName (p : String) : String :=
  String.mk ((p.data.reverse.takeWhile (fun c => c ≠ '/')).reverse)

/-- dirName is the path without its final component (filepath.Dir for the
slash-containing paths used here). -/
def dirName (p : String) : String :=
  String.mk ((p.data.reverse.drop ((p.data.reverse.takeWhile (fun c => c ≠ '/')).length + 1)).reverse)

/-- underDir decides whether a path lies strictly inside a directory. -/
def underDir (dir p : String) : Bool :=
  List.isPrefixOf ((dir ++ "/").data) p.data

/-- setFile writes content at a path in the mirror, replacing in place or
appending. -/
def setFile : List (String × String) → String → String → List (String × String)
  | [], p, c => [(p, c)]
  | (q, d) :: rest, p, c =>
      if q == p then (p, c) :: rest else (q, d) :: setFile rest p c

/-- loadConfig reads .config.json; a missing file means no selections yet. -/
def loadConfig (st : OrchState) : Except String SyncConfig :=
  match st.configFile with
  | ConfigFile.absent => Except.ok { files := [], lastSyncTime := "" }
  | ConfigFile.corrupt => Except.error "unmarshal failed"
  | ConfigFile.stored c => Except.ok c

/-- saveConfig writes .config.json: MkdirAll on the provider directory
followed by a direct WriteFile of the marshalled config. -/
def saveConfig (sd pid : String) (st : OrchState) (c : SyncConfig) :
    OrchState × List FsOp :=
  ({ st with configFile := ConfigFile.stored c },
   [FsOp.mkdirAll (providerDir sd pid), FsOp.writeFile (configPath sd pid)])

/-- saveFiles overwrites the selection set in the persisted config;
`none` models the nil-pointer dereference the Go code hits when
loadConfig fails on a corrupt file (its error is discarded). -/
def saveFiles (sd pid : String) (st : OrchState) (files : List SelectedFile) :
    Option (OrchState × List FsOp) :=
  match loadConfig st with
  | Except.error _ => none
  | Except.ok config => some (saveConfig sd pid st { config with files := files })

/-- lookupSelected reads the saved-selection map keyed by file id
(later duplicate entries overwrite earlier ones, default false). -/
def lookupSelected (files : List SelectedFile) (id : String) : Bool :=
  match (files.filter (fun f => f.id == id)).getLast? with
  | some f => f.selected
  | none => false

/-- listFiles merges the remote listing with the saved selection flags;
on a remote failure it returns the cached selection list with a nil
error. `none` models the nil-pointer dereference on a corrupt config. -/
def listFiles (st : OrchState) (remote : Except String (List RemoteFile)) :
    Option (Except String (List SelectedFile)) :=
  match loadConfig st with
  | Except.error _ => none
  | Except.ok config =>
      match remote with
      | Except.error _ => some (Except.ok config.files)
      | Except.ok remoteFiles =>
          some (Except.ok (remoteFiles.map (fun rf =>
            { id := rf.id, name := rf.name, path := rf.path,
              selected := lookupSelected config.files rf.id })))

/-- downloadToPath streams one remote file to a temporary sibling and
renames it over the destination; only the provider's download can fail
in the model. -/
def downloadToPath (net : SyncNet) (st : OrchState) (fileID localPath : String) :
    OrchState × List FsOp × Except String String :=
  match net.download fileID with
  | Except.error e => (st, [], Except.error ("download failed: " ++ e))
  | Except.ok (content, lastModified) =>
      let tmp := localPath ++ ".tmp"
      ({ st with mirror := setFile st.mirror localPath content },
       [FsOp.writeFile tmp, FsOp.rename tmp localPath],
       Except.ok lastModified)

/-- shouldCleanup marks a mirrored path for the unselected-file cleanup
walk: under the provider directory, not hidden, .psafe3-suffixed, and
not among the selected paths. -/
def shouldCleanup (sd pid : String) (selectedPaths : List String) (p : String) : Bool :=
  underDir (providerDir sd pid) p && !startsWithDot (baseName p) &&
    hasPsafe3Suffix (baseName p) && !selectedPaths.contains p

/-- cleanupUnselectedFiles walks the mirror and deletes every .psafe3
file whose path is not selected, skipping hidden files. -/
def cleanupUnselectedFiles (sd pid : String) (st : OrchState)
    (selectedFiles : List SelectedFile) : OrchState × List FsOp :=
  let selectedPaths := selectedFiles.map (getLocalPath sd pid)
  ({ st with mirror := st.mirror.filter (fun pc => !shouldCleanup sd pid selectedPaths pc.1) },
   (st.mirror.filter (fun pc => shouldCleanup sd pid selectedPaths pc.1)).map
     (fun pc => FsOp.removeFile pc.1))

/-- shouldCleanupAll marks a mirrored path for the disconnect-time
cleanup walk (no hidden-file exemption in the source). -/
def shouldCleanupAll (sd pid : String) (p : String) : Bool :=
  underDir (providerDir sd pid) p && hasPsafe3Suffix (baseName p)

/-- cleanupAllSafeFiles deletes every mirrored .psafe3 file for the
backend. -/
def cleanupAllSafeFiles (sd pid : String) (st : OrchState) : OrchState × List FsOp :=
  ({ st with mirror := st.mirror.filter (fun pc => !shouldCleanupAll sd pid pc.1) },
   (st.mirror.filter (fun pc => shouldCleanupAll sd pid pc.1)).map
     (fun pc => FsOp.removeFile pc.1))

/-- syncStep processes one selected file inside sync: ensure the parent
directory, then download via downloadToPath, recording a per-file
result either way. -/
def syncStep (sd pid : String) (net : SyncNet)
    (acc : OrchState × List FsOp × List SyncResult) (file : SelectedFile) :
    OrchState × List FsOp × List SyncResult :=
  let localPath := getLocalPath sd pid file
  let mk := FsOp.mkdirAll (dirName localPath)
  match downloadToPath net acc.1 file.id localPath with
  | (st2, ops2, Except.error e) =>
      (st2, acc.2.1 ++ [mk] ++ ops2,
       acc.2.2 ++ [{ name := file.name, success := false, error := e }])
  | (st2, ops2, Except.ok lastModified) =>
      (st2, acc.2.1 ++ [mk] ++ ops2,
       acc.2.2 ++ [{ name := file.name, success := true, lastModified := lastModified }])

/-- sync is the core generic algorithm: verify the cheap connection
check, load selections, download each selected file, clean up
unselected mirrored files, and record the sync time. -/
def sync (sd pid : String) (st : OrchState) (net : SyncNet) (now : String) :
    OrchState × List FsOp × Except String (List SyncResult) :=
  match net.connCheap with
  | Except.error e => (st, [], Except.error ("failed to check connection status: " ++ e))
  | Except.ok status =>
      if !status.connected then (st, [], Except.error "not authenticated")
      else
        match loadConfig st with
        | Except.error e => (st, [], Except.error ("failed to load config: " ++ e))
        | Except.ok config =>
            let selectedFiles := config.files.filter (fun f => f.selected)
            let downloaded := selectedFiles.foldl (syncStep sd pid net) (st, [], [])
            let cleaned := cleanupUnselectedFiles sd pid downloaded.1 selectedFiles
            let saved := saveConfig sd pid cleaned.1 { config with lastSyncTime := now }
            (saved.1, downloaded.2.1 ++ cleaned.2 ++ saved.2, Except.ok downloaded.2.2)

/-- syncDisconnect is the orchestrator's Disconnect: it delegates to the
provider (whose outcome is `provRes`) and, only when that succeeds,
removes .config.json and every mirrored safe file. -/
def syncDisconnect (sd pid : String) (st : OrchState) (provRes : Except String Unit) :
    OrchState × List FsOp × Except String Unit :=
  match provRes with
  | Except.error e => (st, [], Except.error e)
  | Except.ok _ =>
      let st1 : OrchState := { st with configFile := ConfigFile.absent }
      let cleaned := cleanupAllSafeFiles sd pid st1
      (cleaned.1, [FsOp.removeFile (configPath sd pid)] ++ cleaned.2, Except.ok ())

/-! ## Provider registry model (Registry.Discover) -/

/-- RootFile is the root settings.json read-and-decode outcome. -/
inductive RootFile where
  | absent
  | unreadable
  | invalid
  | parsed (baseUrl : String)
  deriving Repr, DecidableEq

/-- EntrySettings is a provider subdirectory's settings.json outcome. -/
inductive EntrySettings where
  | absent
  | unreadable
  | bytes (data : String)
  deriving Repr, DecidableEq

/-- DirEntry is one entry of the root directory listing. -/
structure DirEntry where
  name : String
  isDir : Bool
  settings : EntrySettings
  deriving Repr, DecidableEq

/-- Factory is a provider constructor from (providerDir, baseURL,
settings bytes). -/
def Factory (π : Type) := String → String → String → Except String π

/-- discoverStep handles one directory entry: non-directories and
unregistered names are ignored, missing settings are skipped silently,
unreadable settings and failing factories are skipped with a warning. -/
def discoverStep (π : Type) (factories : String → Option (Factory π))
    (safesDir baseUrl : String) (providers : List (String × π)) (entry : DirEntry) :
    List (String × π) :=
  if !entry.isDir then providers
  else
    match factories entry.name with
    | none => providers
    | some factory =>
        match entry.settings with
        | EntrySettings.absent => providers
        | EntrySettings.unreadable => providers
        | EntrySettings.bytes data =>
            match factory (joinPath safesDir entry.name) baseUrl data with
            | Except.error _ => providers
            | Except.ok p => providers ++ [(entry.name, p)]

/-- discover reads the root settings.json (hard failure when missing,
unreadable, invalid, or with an empty baseUrl), lists the root directory
(hard failure when unreadable), and folds the fail-soft per-entry step
over the entries. -/
def discover (π : Type) (factories : String → Option (Factory π)) (safesDir : String)
    (root : RootFile) (listing : Except String (List DirEntry)) :
    Except String (List (String × π)) :=
  match root with
  | RootFile.absent => Except.error "settings.json not found: baseUrl is required"
  | RootFile.unreadable => Except.error "failed to read settings.json"
  | RootFile.invalid => Except.error "invalid settings.json"
  | RootFile.parsed baseUrl =>
      if baseUrl == "" then Except.error "baseUrl is required in settings.json"
      else
        match listing with
        | Except.error e => Except.error ("failed to read safes directory: " ++ e)
        | Except.ok entries =>
            Except.ok (entries.foldl (discoverStep π factories safesDir baseUrl) [])

/-- exceptOk reports whether an Except value is a success. -/
def exceptOk {ε α : Type} (e : Except ε α) : Bool :=
  match e with
  | Except.ok _ => true
  | Except.error _ => false

/-! ## Write-discipline predicates (for the persistence claims) -/

/-- writesDirectly holds when a trace writes the destination path
itself. -/
def writesDirectly (ops : List FsOp) (dest : String) : Bool :=
  ops.contains (FsOp.writeFile dest)

/-- tempThenRename holds when a trace never writes the destination
directly and instead writes some temporary path that it renames onto the
destination. -/
def tempThenRename (ops : List FsOp) (dest : String) : Bool :=
  !ops.contains (FsOp.writeFile dest) &&
    ops.any (fun op => match op with
      | FsOp.rename src dst => dst == dest && ops.contains (FsOp.writeFile src)
      | _ => false)

/-! ## Concrete instances used by witnesses -/

/-- wSelA is a selected file used by witnesses. -/
def wSelA : SelectedFile :=
  { id := "f1", name := "a.psafe3", path := "/Documents", selected := true }

/-- wCfg is a persisted config used by witnesses. -/
def wCfg : SyncConfig := { files := [wSelA], lastSyncTime := "2024-01-01T00:00:00Z" }

/-- wState is an orchestrator state with a stored config and one
mirrored safe file. -/
def wState : OrchState :=
  { configFile := ConfigFile.stored wCfg,
    mirror := [("/data/onedrive/Documents/a.psafe3", "blob")] }

/-- wNetDisconnected reports a disconnected cheap check. -/
def wNetDisconnected : SyncNet :=
  { connCheap := Except.ok {}, download := fun _ => Except.error "offline" }

example : parseRFC3339 "1970-01-01T00:00:00Z" = some 0 := by decide
example : parseRFC3339 "" = none := by rfl
example : parseRFC3339 "garbage" = none := by rfl
example : parseRFC3339 "2024-02-29T12:30:05Z" = some 1709209805 := by decide
example : parseRFC3339 "2023-02-29T12:30:05Z" = none := by decide
example : parseRFC3339 "2024-01-01T00:00:00+01:00" = some 1704063600 := by decide
example : fmtRFC3339 1709209805 = "2024-02-29T12:30:05Z" := by decide
example : containsStr "error invalid_grant: bad" "invalid_grant" = true := by rfl
example : containsStr "server error" "invalid_grant" = false := by rfl

/-! ## Claim theorems -/

/-- C1: when the provider's cheap connection check (attemptRefresh=false)
reports Connected=false, Sync returns the "not authenticated" error,
performs no filesystem operations, and leaves the mirror and the
persisted .config.json (including lastSyncTime) unchanged. -/
theorem C1_sync_disconnected_no_writes (sd pid : String) (st : OrchState)
    (net : SyncNet) (now : String) (c : ConnectionStatus)
    (hc : net.connCheap = Except.ok c) (hconn : c.connected = false) :
    sync sd pid st net now = (st, [], Except.error "not authenticated") := by
  unfold sync
  rw [hc]
  simp [hconn]

/-- C1 witness: the theorem applied at a concrete disconnected state. -/
theorem C1_witness :
    wNetDisconnected.connCheap = Except.ok {} ∧
    ConnectionStatus.connected {} = false ∧
    sync "/data" "onedrive" wState wNetDisconnected "2024-06-01T00:00:00Z" =
      (wState, [], Except.error "not authenticated") :=
  ⟨rfl, rfl,
   C1_sync_disconnected_no_writes "/data" "onedrive" wState wNetDisconnected
     "2024-06-01T00:00:00Z" {} rfl rfl⟩

/-- C7: with a readable (absent or well-formed) persisted selection set,
ListFiles returns the persisted selection list with a nil error when the
remote listing fails, and otherwise returns exactly the remote files
annotated with the persisted Selected flag of the entry with the same id
(false when no persisted entry has that id). -/
theorem C7_listFiles_degrades (st : OrchState)
    (remote : Except String (List RemoteFile)) (cfg : SyncConfig)
    (h : loadConfig st = Except.ok cfg) :
    (∀ e, remote = Except.error e →
      listFiles st remote = some (Except.ok cfg.files)) ∧
    (∀ rfs, remote = Except.ok rfs →
      listFiles st remote = some (Except.ok (rfs.map (fun rf =>
        { id := rf.id, name := rf.name, path := rf.path,
          selected := lookupSelected cfg.files rf.id })))) := by
  constructor
  · intro e he
    subst he
    unfold listFiles
    rw [h]
  · intro rfs hr
    subst hr
    unfold listFiles
    rw [h]

/-- C7 witness: both branches of the theorem at a concrete state. -/
theorem C7_witness :
    loadConfig wState = Except.ok wCfg ∧
    listFiles wState (Except.error "remote outage") = some (Except.ok wCfg.files) ∧
    listFiles wState (Except.ok
        [{ id := "f1", name := "a.psafe3", path := "/Documents" },
         { id := "f2", name := "b.psafe3", path := "/" }]) =
      some (Except.ok
        [{ id := "f1", name := "a.psafe3", path := "/Documents", selected := true },
         { id := "f2", name := "b.psafe3", path := "/", selected := false }]) := by
  refine ⟨rfl, (C7_listFiles_degrades wState _ wCfg rfl).1 "remote outage" rfl, ?_⟩
  rw [(C7_listFiles_degrades wState _ wCfg rfl).2 _ rfl]
  rfl

/-- C9: when SaveFiles succeeds, reading the persisted config back
yields a Files field equal to the saved list. -/
theorem C9_saveFiles_roundtrip (sd pid : String) (st : OrchState)
    (files : List SelectedFile) (st' : OrchState) (ops : List FsOp)
    (h : saveFiles sd pid st files = some (st', ops)) :
    ∃ c, loadConfig st' = Except.ok c ∧ c.files = files := by
  unfold saveFiles at h
  cases hcfg : loadConfig st with
  | error e => rw [hcfg] at h; cases h
  | ok config =>
      rw [hcfg] at h
      injection h with h
      refine ⟨{ config with files := files }, ?_, rfl⟩
      have h1 : (saveConfig sd pid st { config with files := files }).1 = st' :=
        congrArg Prod.fst h
      rw [← h1]
      rfl

/-- C9 witness: a concrete save followed by a reload. -/
theorem C9_witness :
    saveFiles "/data" "onedrive" wState [wSelA] =
      some ({ wState with configFile := ConfigFile.stored { wCfg with files := [wSelA] } },
            [FsOp.mkdirAll "/data/onedrive", FsOp.writeFile "/data/onedrive/.config.json"]) ∧
    ∃ c, loadConfig { wState with
        configFile := ConfigFile.stored { wCfg with files := [wSelA] } } = Except.ok c ∧
      c.files = [wSelA] :=
  ⟨rfl, C9_saveFiles_roundtrip "/data" "onedrive" wState [wSelA] _ _ rfl⟩

/-- C10: a successful SaveFiles changes only the Files field of the
persisted config; the persisted lastSyncTime is exactly what the
previous load yielded (absent stays absent, as the empty string). -/
theorem C10_saveFiles_frame (sd pid : String) (st : OrchState)
    (files : List SelectedFile) (st' : OrchState) (ops : List FsOp)
    (h : saveFiles sd pid st files = some (st', ops)) :
    ∃ c, loadConfig st = Except.ok c ∧
      loadConfig st' = Except.ok { files := files, lastSyncTime := c.lastSyncTime } := by
  unfold saveFiles at h
  cases hcfg : loadConfig st with
  | error e => rw [hcfg] at h; cases h
  | ok config =>
      rw [hcfg] at h
      injection h with h
      refine ⟨config, rfl, ?_⟩
      have h1 : (saveConfig sd pid st { config with files := files }).1 = st' :=
        congrArg Prod.fst h
      rw [← h1]
      rfl

/-- C10 witness: saving over an absent config file keeps lastSyncTime
absent (the empty string). -/
theorem C10_witness :
    saveFiles "/data" "onedrive" { configFile := ConfigFile.absent, mirror := [] } [wSelA] =
      some ({ configFile := ConfigFile.stored { files := [wSelA], lastSyncTime := "" },
              mirror := [] },
            [FsOp.mkdirAll "/data/onedrive", FsOp.writeFile "/data/onedrive/.config.json"]) ∧
    ∃ c, loadConfig { configFile := ConfigFile.absent, mirror := ([] : List (String × String)) } =
        Except.ok c ∧
      loadConfig { configFile := ConfigFile.stored { files := [wSelA], lastSyncTime := "" },
                   mirror := ([] : List (String × String)) } =
        Except.ok { files := [wSelA], lastSyncTime := c.lastSyncTime } :=
  ⟨rfl, C10_saveFiles_frame "/data" "onedrive"
    { configFile := ConfigFile.absent, mirror := [] } [wSelA] _ _ rfl⟩

/-- wOdc is a OneDrive provider configuration used by witnesses. -/
def wOdc : ODConfig :=
  { storageDir := "/data/onedrive", clientID := "cid", redirectURI := "http://localhost/cb" }

/-- wTok is an expired but parseable persisted credential. -/
def wTok : Tokens :=
  { accessToken := "acc", refreshToken := "ref", expiresAt := "1970-01-01T00:00:00Z",
    accountName := "N", accountEmail := "n@e" }

/-- wStExpired is a provider state holding wTok with the clock past its
expiry. -/
def wStExpired : ODState :=
  { tokensFile := some wTok, verifierFile := none, now := 1000 }

/-- wNetInvalidGrant makes the token endpoint reject the refresh with an
invalid_grant body. -/
def wNetInvalidGrant : ODNet :=
  { refreshResp := HttpResult.httpErr "error invalid_grant: expired",
    exchangeResp := HttpResult.netErr, profileResp := none }

/-- wNetRotateless makes the token endpoint answer the refresh with a
200 response carrying an empty refresh_token. -/
def wNetRotateless : ODNet :=
  { refreshResp := HttpResult.ok { access_token := "acc2", refresh_token := "", expires_in := 3600 },
    exchangeResp := HttpResult.netErr, profileResp := none }

/-- C8: on a successful token refresh, the persisted credential keeps the
previous refresh token when the response's refresh_token is empty, and
takes the response's refresh_token when it is non-empty. -/
theorem C8_refresh_token_retention (c : ODConfig) (st : ODState) (net : ODNet)
    (t : Tokens) (tr : TokenResponse) (h : net.refreshResp = HttpResult.ok tr) :
    ∃ st' ev nt, refreshAccessToken c st net t = (st', ev, Except.ok nt) ∧
      st'.tokensFile = some nt ∧
      nt.refreshToken = (if tr.refresh_token = "" then t.refreshToken else tr.refresh_token) := by
  unfold refreshAccessToken
  rw [h]
  refine ⟨_, _, _, rfl, rfl, ?_⟩
  by_cases he : tr.refresh_token = ""
  · simp [he]
  · simp [he]

/-- C8 witness: the retention branch at a concrete rotation-free
response. -/
theorem C8_witness :
    wNetRotateless.refreshResp =
      HttpResult.ok { access_token := "acc2", refresh_token := "", expires_in := 3600 } ∧
    ∃ st' ev nt, refreshAccessToken wOdc wStExpired wNetRotateless wTok = (st', ev, Except.ok nt) ∧
      st'.tokensFile = some nt ∧
      nt.refreshToken =
        (if ("" : String) = "" then wTok.refreshToken else ("" : String)) :=
  ⟨rfl, C8_refresh_token_retention wOdc wStExpired wNetRotateless wTok
    { access_token := "acc2", refresh_token := "", expires_in := 3600 } rfl⟩

/-- C5 counterexample: with otherwise-valid credentials whose persisted
expiresAt is the empty string — which `time.Parse` rejects — the status
from GetConnectionStatus(attemptRefresh=true) has Connected=true, not
the Connected=false the claim requires for an unparsable expiry. -/
theorem C5_counterexample :
    parseRFC3339 (Tokens.expiresAt { accessToken := "a", refreshToken := "r", expiresAt := "" }) =
      none ∧
    (getConnectionStatus wOdc
        { tokensFile := some { accessToken := "a", refreshToken := "r", expiresAt := "" },
          verifierFile := none, now := 0 }
        wNetInvalidGrant true).2.2 =
      { connected := true, needsReauth := true } := by
  constructor
  · rfl
  · rfl

/-- C5 (amended): a refresh rejected with an invalid_grant-class body
yields NeedsReauth=true and leaves the persisted credential file in
place (deletion happens only on explicit Disconnect); and a NONEMPTY
unparsable persisted expiresAt alone yields NeedsReauth=true with
Connected=false (an empty expiresAt is exempt from the corruption
check). -/
theorem C5_needs_reauth (c : ODConfig) (st : ODState) (net : ODNet) (t : Tokens)
    (ht : st.tokensFile = some t) (ha : t.accessToken ≠ "") (hr : t.refreshToken ≠ "") :
    (∀ exp body, parseRFC3339 t.expiresAt = some exp → exp ≤ st.now →
      net.refreshResp = HttpResult.httpErr body →
      containsStr body "invalid_grant" = true →
      getConnectionStatus c st net true =
        (st, [Ev.refreshCall t.refreshToken],
         { connected := true, needsReauth := true,
           accountName := t.accountName, accountEmail := t.accountEmail }) ∧
      (getConnectionStatus c st net true).1.tokensFile = some t) ∧
    (∀ attemptRefresh, t.expiresAt ≠ "" → parseRFC3339 t.expiresAt = none →
      getConnectionStatus c st net attemptRefresh = (st, [], { needsReauth := true })) := by
  constructor
  · intro exp body hparse hexp hresp hinv
    have hlt : ¬ st.now < exp := not_lt.mpr hexp
    have : getConnectionStatus c st net true =
        (st, [Ev.refreshCall t.refreshToken],
         { connected := true, needsReauth := true,
           accountName := t.accountName, accountEmail := t.accountEmail }) := by
      unfold getConnectionStatus getValidAccessToken refreshAccessToken loadTokens
      rw [ht]
      simp [ha, hr, hparse, hlt, hresp, hinv]
    refine ⟨this, ?_⟩
    rw [this, ht]
  · intro attemptRefresh hne hparse
    unfold getConnectionStatus loadTokens
    rw [ht]
    simp [ha, hr, hne, hparse]

/-- C5 witness: both amended branches at concrete inputs. -/
theorem C5_witness :
    wStExpired.tokensFile = some wTok ∧
    parseRFC3339 wTok.expiresAt = some 0 ∧
    wNetInvalidGrant.refreshResp = HttpResult.httpErr "error invalid_grant: expired" ∧
    getConnectionStatus wOdc wStExpired wNetInvalidGrant true =
      (wStExpired, [Ev.refreshCall wTok.refreshToken],
       { connected := true, needsReauth := true,
         accountName := wTok.accountName, accountEmail := wTok.accountEmail }) ∧
    (getConnectionStatus wOdc wStExpired wNetInvalidGrant true).1.tokensFile = some wTok ∧
    getConnectionStatus wOdc
        { tokensFile := some { accessToken := "a", refreshToken := "r", expiresAt := "junk" },
          verifierFile := none, now := 0 }
        wNetInvalidGrant false =
      ({ tokensFile := some { accessToken := "a", refreshToken := "r", expiresAt := "junk" },
         verifierFile := none, now := 0 }, [], { needsReauth := true }) := by
  have h1 := (C5_needs_reauth wOdc wStExpired wNetInvalidGrant wTok rfl
    (by decide) (by decide)).1 0 "error invalid_grant: expired" (by decide) (by decide) rfl
    (by decide)
  have h2 := (C5_needs_reauth wOdc
    { tokensFile := some { accessToken := "a", refreshToken := "r", expiresAt := "junk" },
      verifierFile := none, now := 0 } wNetInvalidGrant
    { accessToken := "a", refreshToken := "r", expiresAt := "junk" } rfl
    (by decide) (by decide)).2 false (by decide) (by decide)
  exact ⟨rfl, by decide, rfl, h1.1, h1.2, h2⟩

/-- C6: for a configured client, HandleCallback rejects a persisted code
verifier whose mtime is more than 15 minutes old — failing with no token
exchange attempted and deleting the verifier file — and for a verifier
younger than 15 minutes it proceeds to exchange the authorization code
with exactly that verifier. -/
theorem C6_verifier_ttl (c : ODConfig) (st : ODState) (net : ODNet)
    (code v : String) (mtime : Int)
    (hcid : c.clientID ≠ "") (hv : st.verifierFile = some (v, mtime)) :
    (st.now - mtime > codeVerifierMaxAge →
      handleCallback c st net code =
        ({ st with verifierFile := none },
         [Ev.fs (FsOp.removeFile (verifierPath c))],
         Except.error "failed to load code verifier: code verifier expired")) ∧
    (st.now - mtime < codeVerifierMaxAge →
      Ev.exchange code v ∈ (handleCallback c st net code).2.1) := by
  constructor
  · intro hstale
    unfold handleCallback loadCodeVerifier
    rw [hv]
    simp [hcid, hstale]
  · intro hfresh
    have hok : ¬ st.now - mtime > codeVerifierMaxAge := by omega
    unfold handleCallback loadCodeVerifier exchangeCodeForTokens
    rw [hv]
    cases hresp : net.exchangeResp <;> simp [hcid, hok, hresp]

/-- C6 witness: both branches at concrete fresh and stale states. -/
theorem C6_witness :
    Pwsafe.ODConfig.clientID wOdc ≠ "" ∧
    ODState.verifierFile
        { tokensFile := none, verifierFile := some ("ver1", 0), now := 1000 } =
      some ("ver1", 0) ∧
    handleCallback wOdc { tokensFile := none, verifierFile := some ("ver1", 0), now := 1000 }
        wNetInvalidGrant "authcode" =
      ({ tokensFile := none, verifierFile := none, now := 1000 },
       [Ev.fs (FsOp.removeFile "/data/onedrive/.code_verifier")],
       Except.error "failed to load code verifier: code verifier expired") ∧
    Ev.exchange "authcode" "ver2" ∈
      (handleCallback wOdc { tokensFile := none, verifierFile := some ("ver2", 900), now := 1000 }
        wNetInvalidGrant "authcode").2.1 := by
  refine ⟨by decide, rfl, ?_, ?_⟩
  · exact (C6_verifier_ttl wOdc _ wNetInvalidGrant "authcode" "ver1" 0 (by decide) rfl).1
      (by decide)
  · exact (C6_verifier_ttl wOdc _ wNetInvalidGrant "authcode" "ver2" 900 (by decide) rfl).2
      (by decide)

/-- C3 counterexample: when the provider's own Disconnect fails, the
orchestrator's Disconnect returns the error untouched — the persisted
.config.json is not deleted and the mirrored safe file remains, contrary
to the claim that both cleanup steps are attempted on every outcome. -/
theorem C3_counterexample :
    syncDisconnect "/data" "onedrive" wState (Except.error "revoke failed") =
      (wState, [], Except.error "revoke failed") ∧
    wState.configFile ≠ ConfigFile.absent ∧
    wState.mirror ≠ [] := by
  refine ⟨rfl, ?_, ?_⟩ <;> decide

/-- C3 (amended): the orchestrator's Disconnect deletes the persisted
.config.json and removes every mirrored safe file only when the
provider's own Disconnect succeeds; when the provider's teardown fails,
Disconnect returns that error and performs no cleanup. -/
theorem C3_disconnect_cleanup (sd pid : String) (st : OrchState)
    (r : Except String Unit) :
    (∀ e, r = Except.error e → syncDisconnect sd pid st r = (st, [], Except.error e)) ∧
    (r = Except.ok () →
      (syncDisconnect sd pid st r).1.configFile = ConfigFile.absent ∧
      ∀ pc ∈ (syncDisconnect sd pid st r).1.mirror,
        underDir (providerDir sd pid) pc.1 = true →
        hasPsafe3Suffix (baseName pc.1) = false) := by
  constructor
  · intro e he
    subst he
    rfl
  · intro hok
    subst hok
    refine ⟨rfl, ?_⟩
    intro pc hpc hunder
    simp only [syncDisconnect, cleanupAllSafeFiles, List.mem_filter] at hpc
    have h2 := hpc.2
    simp only [shouldCleanupAll, Bool.not_eq_true', Bool.and_eq_false_iff] at h2
    cases h2 with
    | inl h => rw [h] at hunder; cases hunder
    | inr h => exact h

/-- C3 witness: both branches of the amended theorem at concrete
inputs. -/
theorem C3_witness :
    syncDisconnect "/data" "onedrive" wState (Except.error "token revoke boom") =
      (wState, [], Except.error "token revoke boom") ∧
    ((syncDisconnect "/data" "onedrive" wState (Except.ok ())).1.configFile =
        ConfigFile.absent ∧
      ∀ pc ∈ (syncDisconnect "/data" "onedrive" wState (Except.ok ())).1.mirror,
        underDir (providerDir "/data" "onedrive") pc.1 = true →
        hasPsafe3Suffix (baseName pc.1) = false) :=
  ⟨(C3_disconnect_cleanup "/data" "onedrive" wState _).1 "token revoke boom" rfl,
   (C3_disconnect_cleanup "/data" "onedrive" wState _).2 rfl⟩

/-- C4 counterexample: saveConfig writes .config.json directly and
storeTokens writes .tokens.json directly — neither trace writes a
temporary file and renames it over the destination, contrary to the
claimed write-to-temp-then-rename discipline. -/
theorem C4_counterexample :
    tempThenRename (saveConfig "/data" "onedrive" wState wCfg).2
      (configPath "/data" "onedrive") = false ∧
    writesDirectly (saveConfig "/data" "onedrive" wState wCfg).2
      (configPath "/data" "onedrive") = true ∧
    tempThenRename (evFsOps (storeTokens wOdc wStExpired wTok).2) (tokensPath wOdc) = false ∧
    writesDirectly (evFsOps (storeTokens wOdc wStExpired wTok).2) (tokensPath wOdc) = true := by
  refine ⟨?_, ?_, ?_, ?_⟩ <;> decide

/-- C4 (amended): config persistence (saveConfig) and credential
persistence (storeTokens) are single direct writes of the destination
file with no rename step; the write-to-temp-then-rename discipline
applies to file downloads (downloadToPath), whose successful trace
writes only a temporary sibling and renames it over the destination. -/
theorem C4_write_discipline (sd pid : String) (st st2 : OrchState) (cfg : SyncConfig)
    (c : ODConfig) (ost : ODState) (t : Tokens) (net : SyncNet)
    (fid lp content lm : String) :
    writesDirectly (saveConfig sd pid st cfg).2 (configPath sd pid) = true ∧
    (∀ src dst, FsOp.rename src dst ∉ (saveConfig sd pid st cfg).2) ∧
    writesDirectly (evFsOps (storeTokens c ost t).2) (tokensPath c) = true ∧
    (∀ src dst, FsOp.rename src dst ∉ evFsOps (storeTokens c ost t).2) ∧
    (net.download fid = Except.ok (content, lm) →
      tempThenRename (downloadToPath net st2 fid lp).2.1 lp = true) := by
  have htmp : lp ++ ".tmp" ≠ lp := by
    intro h
    have hlen := congrArg String.length h
    rw [String.length_append] at hlen
    have h4 : (".tmp" : String).length = 4 := rfl
    omega
  refine ⟨?_, ?_, ?_, ?_, ?_⟩
  · simp [saveConfig, writesDirectly]
  · intro src dst
    simp [saveConfig]
  · simp [storeTokens, evFsOps, writesDirectly]
  · intro src dst
    simp [storeTokens, evFsOps]
  · intro hdl
    unfold downloadToPath
    rw [hdl]
    simp [tempThenRename, htmp, Ne.symm htmp]

/-- C4 witness: the amended discipline at a concrete download. -/
theorem C4_witness :
    writesDirectly (saveConfig "/data" "onedrive" wState wCfg).2
      (configPath "/data" "onedrive") = true ∧
    (∀ src dst, FsOp.rename src dst ∉ (saveConfig "/data" "onedrive" wState wCfg).2) ∧
    writesDirectly (evFsOps (storeTokens wOdc wStExpired wTok).2) (tokensPath wOdc) = true ∧
    (∀ src dst, FsOp.rename src dst ∉ evFsOps (storeTokens wOdc wStExpired wTok).2) ∧
    (SyncNet.download
        { connCheap := Except.ok { connected := true },
          download := fun _ => Except.ok ("blob", "lm") } "f1" =
        Except.ok ("blob", "lm") →
      tempThenRename
        (downloadToPath
          { connCheap := Except.ok { connected := true },
            download := fun _ => Except.ok ("blob", "lm") }
          wState "f1" "/data/onedrive/Documents/a.psafe3").2.1
        "/data/onedrive/Documents/a.psafe3" = true) :=
  C4_write_discipline "/data" "onedrive" wState wState wCfg wOdc wStExpired wTok
    { connCheap := Except.ok { connected := true },
      download := fun _ => Except.ok ("blob", "lm") }
    "f1" "/data/onedrive/Documents/a.psafe3" "blob" "lm"

/-- entryYields states that directory entry `e` fully succeeds during
discovery and contributes the pair `idp` to the provider map: it is a
directory with a registered factory whose settings bytes are readable
and whose factory call returns the provider. -/
def entryYields (π : Type) (factories : String → Option (Factory π))
    (safesDir baseUrl : String) (e : DirEntry) (idp : String × π) : Prop :=
  e.name = idp.1 ∧ e.isDir = true ∧
    ∃ f data, factories e.name = some f ∧ e.settings = EntrySettings.bytes data ∧
      f (joinPath safesDir e.name) baseUrl data = Except.ok idp.2

/-- discoverFold_mem traces every element of the discovery fold back to
the accumulator or to a fully-successful entry. -/
theorem discoverFold_mem (π : Type) (factories : String → Option (Factory π))
    (safesDir baseUrl : String) (es : List DirEntry) (acc : List (String × π))
    (idp : String × π)
    (h : idp ∈ es.foldl (discoverStep π factories safesDir baseUrl) acc) :
    idp ∈ acc ∨ ∃ e ∈ es, entryYields π factories safesDir baseUrl e idp := by
  induction es generalizing acc with
  | nil => exact Or.inl h
  | cons e es ih =>
      rcases ih (discoverStep π factories safesDir baseUrl acc e) h with h1 | h1
      · cases hd : e.isDir with
        | false =>
            have hstep : discoverStep π factories safesDir baseUrl acc e = acc := by
              simp [discoverStep, hd]
            rw [hstep] at h1
            exact Or.inl h1
        | true =>
            cases hf : factories e.name with
            | none =>
                have hstep : discoverStep π factories safesDir baseUrl acc e = acc := by
                  simp [discoverStep, hd, hf]
                rw [hstep] at h1
                exact Or.inl h1
            | some f =>
                cases hs : e.settings with
                | absent =>
                    have hstep : discoverStep π factories safesDir baseUrl acc e = acc := by
                      simp [discoverStep, hd, hf, hs]
                    rw [hstep] at h1
                    exact Or.inl h1
                | unreadable =>
                    have hstep : discoverStep π factories safesDir baseUrl acc e = acc := by
                      simp [discoverStep, hd, hf, hs]
                    rw [hstep] at h1
                    exact Or.inl h1
                | bytes data =>
                    cases hres : f (joinPath safesDir e.name) baseUrl data with
                    | error err =>
                        have hstep : discoverStep π factories safesDir baseUrl acc e = acc := by
                          simp [discoverStep, hd, hf, hs, hres]
                        rw [hstep] at h1
                        exact Or.inl h1
                    | ok p =>
                        have hstep : discoverStep π factories safesDir baseUrl acc e =
                            acc ++ [(e.name, p)] := by
                          simp [discoverStep, hd, hf, hs, hres]
                        rw [hstep] at h1
                        rcases List.mem_append.mp h1 with h2 | h2
                        · exact Or.inl h2
                        · have heq : idp = (e.name, p) := by simpa using h2
                          subst heq
                          exact Or.inr ⟨e, List.mem_cons_self e es,
                            rfl, hd, f, data, hf, hs, hres⟩
      · rcases h1 with ⟨e', he', hy⟩
        exact Or.inr ⟨e', List.mem_cons_of_mem e he', hy⟩

/-- C2: for a root whose settings.json parses with a non-empty baseUrl
and whose directory listing is readable, Discover returns a provider map
with no error regardless of the subdirectories' contents, and these root
conditions are the only way it succeeds (so a missing/unreadable/invalid
root settings.json, an empty baseUrl, or an unreadable root directory
are the only hard failures); moreover every pair in the returned map
comes from a fully-successful entry, so unregistered folders, folders
with missing or unreadable settings, and failing factories contribute
nothing and abort nothing. -/
theorem C2_discover_fail_soft (π : Type) (factories : String → Option (Factory π))
    (sd : String) (root : RootFile) (listing : Except String (List DirEntry)) :
    (exceptOk (discover π factories sd root listing) = true ↔
      ((∃ b, root = RootFile.parsed b ∧ b ≠ "") ∧ ∃ es, listing = Except.ok es)) ∧
    (∀ b es m idp, root = RootFile.parsed b → b ≠ "" → listing = Except.ok es →
      discover π factories sd root listing = Except.ok m → idp ∈ m →
      ∃ e ∈ es, entryYields π factories sd b e idp) := by
  constructor
  · constructor
    · intro hok
      cases root with
      | absent => simp [discover, exceptOk] at hok
      | unreadable => simp [discover, exceptOk] at hok
      | invalid => simp [discover, exceptOk] at hok
      | parsed b =>
          by_cases hb : b = ""
          · simp [discover, hb, exceptOk] at hok
          · cases listing with
            | error e => simp [discover, hb, exceptOk] at hok
            | ok es => exact ⟨⟨b, rfl, hb⟩, es, rfl⟩
    · rintro ⟨⟨b, hroot, hb⟩, es, hlist⟩
      subst hroot
      subst hlist
      simp [discover, hb, exceptOk]
  · rintro b es m idp rfl hb rfl hdisc hmem
    have hm : m = es.foldl (discoverStep π factories sd b) [] := by
      simp [discover, hb] at hdisc
      exact hdisc.symm
    subst hm
    rcases discoverFold_mem π factories sd b es [] idp hmem with h | h
    · cases h
    · exact h

/-- wFactories registers three mock backends for the witness: one that
constructs, one whose factory rejects its settings, and one whose
settings file will be absent. -/
def wFactories : String → Option (Factory Nat) :=
  fun id =>
    if id == "mock" then some (fun _ _ _ => Except.ok 7)
    else if id == "badmock" then some (fun _ _ _ => Except.error "bad settings")
    else if id == "bare" then some (fun _ _ _ => Except.ok 9)
    else none

/-- wEntries exercises every skip rule: an unregistered folder, a
registered folder without settings, a registered folder whose factory
fails, a plain file, and one fully-successful backend. -/
def wEntries : List DirEntry :=
  [{ name := "unknown", isDir := true, settings := EntrySettings.bytes "x" },
   { name := "bare", isDir := true, settings := EntrySettings.absent },
   { name := "badmock", isDir := true, settings := EntrySettings.bytes "zzz" },
   { name := "settings.json", isDir := false, settings := EntrySettings.unreadable },
   { name := "mock", isDir := true, settings := EntrySettings.bytes "ok" }]

/-- C2 witness: discovery succeeds on the mixed concrete layout and the
single discovered pair traces back to the one fully-successful entry. -/
theorem C2_witness :
    exceptOk (discover Nat wFactories "/data" (RootFile.parsed "http://x")
      (Except.ok wEntries)) = true ∧
    ∃ e ∈ wEntries, entryYields Nat wFactories "/data" "http://x" e ("mock", 7) :=
  ⟨(C2_discover_fail_soft Nat wFactories "/data" (RootFile.parsed "http://x")
      (Except.ok wEntries)).1.mpr ⟨⟨"http://x", rfl, by decide⟩, wEntries, rfl⟩,
   (C2_discover_fail_soft Nat wFactories "/data" (RootFile.parsed "http://x")
      (Except.ok wEntries)).2 "http://x" wEntries [("mock", 7)] ("mock", 7)
      rfl (by decide) rfl rfl (by decide)⟩

end Pwsafe
